import Mathlib

/-
Verification development for the huelib crate (a Rust client for the Philips
Hue bridge REST API).  The Rust sources are embedded shallowly:

* JSON values are modeled by the inductive `Json` below; JSON numbers are
  modeled as exact rationals (every finite `f32`/`f64` and every integer that
  serde_json can produce is a rational, and the operations the claims exercise
  on numbers -- negation, equality of integer codes -- are exact on `f32`).
* Rust `u8`/`u16` attribute payloads are modeled as `Fin 256`/`Fin 65536`;
  the casts `u8 as i16` and `u16 as i32` performed during serialization are
  value-preserving on those ranges and are modeled as the coercion into `ℤ`.
* `f32` scalars are modeled as exact rationals.  The one operation whose
  result is not rational, `f32::powf` (whose precision Rust documents as
  platform-dependent), is abstracted as an explicit function parameter
  `powf : ℚ → ℚ → ℚ` threaded through the color pipeline; no claim settled
  here depends on its values.  Rounding of individual f32 additions,
  multiplications and divisions is likewise idealized as exact.
* Fallible Rust functions returning `Result` are modeled with `Except`.
* HTTP transport is abstracted: each network-facing operation is modeled as a
  function of the raw JSON value the bridge returned.
-/

namespace Huelib

/-- Model of `serde_json::Value`: JSON values, with objects as association
lists in insertion order and numbers as exact rationals. -/
inductive Json where
  | null : Json
  | bool : Bool → Json
  | num : ℚ → Json
  | str : String → Json
  | arr : List Json → Json
  | obj : List (String × Json) → Json

/-- Key lookup in a JSON object's entry list: first entry whose key matches,
as `serde_json::Map::get` / iteration order based field matching does. -/
def findValue : List (String × Json) → String → Option Json
  | [], _ => none
  | (k', v) :: rest, k => if k = k' then some v else findValue rest k

/-! ## Color engine (src/color.rs) -/

/-- Error kinds of `std::num::ParseIntError` reachable from
`u8::from_str_radix(_, 16)` on the slices `Color::from_hex` takes. -/
inductive IntErrorKind where
  | Empty : IntErrorKind
  | InvalidDigit : IntErrorKind
  | PosOverflow : IntErrorKind
deriving DecidableEq

/-- Value of an ASCII hexadecimal digit, as `from_str_radix` recognizes
digits for radix 16 (case-insensitive, by byte ranges); `none` for every
other character. -/
def hexDigitVal? (c : Char) : Option Nat :=
  if 48 ≤ c.toNat ∧ c.toNat ≤ 57 then some (c.toNat - 48)
  else if 97 ≤ c.toNat ∧ c.toNat ≤ 102 then some (c.toNat - 87)
  else if 65 ≤ c.toNat ∧ c.toNat ≤ 70 then some (c.toNat - 55)
  else none

/-- Digit-accumulation loop of `u8::from_str_radix(_, 16)`: checked
multiply-by-radix and add in `u8`, overflow reported as `PosOverflow`. -/
def fromStrRadix16U8Go : List Char → Nat → Except IntErrorKind Nat
  | [], acc => .ok acc
  | c :: cs, acc =>
    match hexDigitVal? c with
    | none => .error .InvalidDigit
    | some d =>
      if 255 < acc * 16 then .error .PosOverflow
      else if 255 < acc * 16 + d then .error .PosOverflow
      else fromStrRadix16U8Go cs (acc * 16 + d)

/-- Model of `u8::from_str_radix(s, 16)` on the character list of `s`
(ASCII fragment): empty input is `Empty`, a leading `+` is permitted when
digits follow, a bare sign is `InvalidDigit`, and for unsigned types a
leading `-` falls through to the digit loop and is `InvalidDigit` there. -/
def fromStrRadix16U8 (s : List Char) : Except IntErrorKind Nat :=
  match s with
  | [] => .error .Empty
  | c :: rest =>
    if c = '+' then
      match rest with
      | [] => .error .InvalidDigit
      | _ => fromStrRadix16U8Go rest 0
    else fromStrRadix16U8Go (c :: rest) 0

/-- `ParseHexError` of src/color.rs (the source spells it `InvalidLenght`). -/
inductive ParseHexError where
  | InvalidLenght : ParseHexError
  | ParseInt : IntErrorKind → ParseHexError
deriving DecidableEq

/-- The `Color` struct of src/color.rs: color-space coordinates (a pair of
f32, modeled as rationals) and an optional `u8` brightness. -/
structure Color where
  space_coordinates : ℚ × ℚ
  brightness : Option (Fin 256)

/-- `Color::from_space_coordinates`: stores the coordinates verbatim and
leaves the brightness unset. -/
def Color.from_space_coordinates (x y : ℚ) : Color :=
  { space_coordinates := (x, y), brightness := none }

/-- `std::f32::MIN_POSITIVE`, the smallest positive normal f32, `2⁻¹²⁶`. -/
def f32_min_positive : ℚ := 1 / 2 ^ 126

/-- The gamma-correction closure inside `Color::from_rgb`:
`if v > 0.04045 { ((v + 0.055) / (1.0 + 0.055)).powf(2.4) } else { v / 12.92 }`.
`powf` is the abstracted `f32::powf` (see the header comment). -/
def gamma_correct (powf : ℚ → ℚ → ℚ) (v : ℚ) : ℚ :=
  if 0.04045 < v then powf ((v + 0.055) / (1 + 0.055)) 2.4 else v / 12.92

/-- Saturating truncation of `v as u8` for an f32 value `v`: truncate toward
zero, clamp into `0..=255` (negative values clamp to 0). -/
def ratAsU8 (q : ℚ) : Fin 256 :=
  ⟨min (Int.toNat ⌊q⌋) 255, Nat.lt_succ_of_le (Nat.min_le_right _ _)⟩

/-- `Color::from_rgb`: gamma-correct the normalized channels, convert to XYZ
by the fixed matrix, project to chromaticity with the `MIN_POSITIVE` guard on
the denominator, and set brightness to `(y * 255.0) as u8`.  The `red`,
`green`, `blue` arguments are `u8` values (callers pass values below 256). -/
def Color.from_rgb (powf : ℚ → ℚ → ℚ) (red green blue : Nat) : Color :=
  let r := gamma_correct powf ((red : ℚ) / 255)
  let g := gamma_correct powf ((green : ℚ) / 255)
  let b := gamma_correct powf ((blue : ℚ) / 255)
  let x := r * 0.649926 + g * 0.103455 + b * 0.197109
  let y := r * 0.234327 + g * 0.743075 + b * 0.022598
  let z := r * 0.000000 + g * 0.053077 + b * 1.035763
  { space_coordinates :=
      (x / (x + y + z + f32_min_positive), y / (x + y + z + f32_min_positive)),
    brightness := some (ratAsU8 (y * 255)) }

/-- Byte-range slice `&s[a..b]` on the character list of an ASCII string. -/
def strSlice (s : List Char) (a b : Nat) : List Char :=
  (s.drop a).take (b - a)

/-- `Color::from_hex` on the character list of an ASCII string: dispatch on
the byte length (4 and 7 are the accepted lengths; note the source never
examines the first character), parse the digit slices with
`u8::from_str_radix(_, 16)`, expand `#RGB` digits by `d * 16 + d`, and
delegate to `Color::from_rgb`. -/
def Color.from_hex (powf : ℚ → ℚ → ℚ) (s : List Char) : Except ParseHexError Color :=
  if s.length = 4 then
    match fromStrRadix16U8 (strSlice s 1 2) with
    | .error e => .error (.ParseInt e)
    | .ok red =>
      match fromStrRadix16U8 (strSlice s 2 3) with
      | .error e => .error (.ParseInt e)
      | .ok green =>
        match fromStrRadix16U8 (strSlice s 3 4) with
        | .error e => .error (.ParseInt e)
        | .ok blue =>
          .ok (Color.from_rgb powf (red * 16 + red) (green * 16 + green) (blue * 16 + blue))
  else if s.length = 7 then
    match fromStrRadix16U8 (strSlice s 1 3) with
    | .error e => .error (.ParseInt e)
    | .ok red =>
      match fromStrRadix16U8 (strSlice s 3 5) with
      | .error e => .error (.ParseInt e)
      | .ok green =>
        match fromStrRadix16U8 (strSlice s 5 7) with
        | .error e => .error (.ParseInt e)
        | .ok blue => .ok (Color.from_rgb powf red green blue)
  else .error .InvalidLenght

/-- A fixed instantiation of the abstracted `powf`, used to state closed
facts that do not depend on `powf` at all. -/
def powf0 : ℚ → ℚ → ℚ := fun _ _ => 0

/-! ## Adjustment model (src/resource/mod.rs) and light modifiers
(src/resource/light.rs, serialization macro from src/util.rs).
The snapshot is mid-rename: util.rs spells the type `Adjuster`, the rest of
the crate `Adjust`; they are the same tagged union. -/

/-- `Adjust<T>`: override / increment / decrement an attribute. -/
inductive Adjust (T : Type) where
  | Override : T → Adjust T
  | Increment : T → Adjust T
  | Decrement : T → Adjust T

/-- Alert effect of a light (serialized lowercase). -/
inductive Alert where
  | Select : Alert
  | LSelect : Alert
  | None : Alert

/-- Dynamic effect of a light (serialized lowercase). -/
inductive Effect where
  | Colorloop : Effect
  | None : Effect

/-- Serde serialization of `Alert` with `rename_all = "lowercase"`. -/
def Alert.serialize : Alert → Json
  | .Select => .str "select"
  | .LSelect => .str "lselect"
  | .None => .str "none"

/-- Serde serialization of `Effect` with `rename_all = "lowercase"`. -/
def Effect.serialize : Effect → Json
  | .Colorloop => .str "colorloop"
  | .None => .str "none"

/-- `light::StateModifier`: every field optional; `u8` fields as `Fin 256`
and `u16` fields as `Fin 65536`, f32 pairs as rational pairs. -/
structure StateModifier where
  on' : Option Bool := none  -- source field `on` (keyword in Lean)
  brightness : Option (Adjust (Fin 256)) := none
  hue : Option (Adjust (Fin 65536)) := none
  saturation : Option (Adjust (Fin 256)) := none
  color_space_coordinates : Option (Adjust (ℚ × ℚ)) := none
  color_temperature : Option (Adjust (Fin 65536)) := none
  alert : Option Alert := none
  effect : Option Effect := none
  transition_time : Option (Fin 65536) := none

/-- `StateModifier::new` (the all-unset default). -/
def StateModifier.new : StateModifier := {}

/-- `StateModifier::with_color`: override the color space coordinates with
the color's coordinates and, only if the color carries a brightness,
override the brightness too. -/
def StateModifier.with_color (self : StateModifier) (value : Color) : StateModifier :=
  let modifier :=
    { self with color_space_coordinates := some (Adjust.Override value.space_coordinates) }
  match value.brightness with
  | some brightness => { modifier with brightness := some (Adjust.Override brightness) }
  | none => modifier

/-- `light::StaticStateModifier` (no increment/decrement, no alert). -/
structure StaticStateModifier where
  on' : Option Bool := none  -- source field `on` (keyword in Lean)
  brightness : Option (Fin 256) := none
  hue : Option (Fin 65536) := none
  saturation : Option (Fin 256) := none
  color_space_coordinates : Option (ℚ × ℚ) := none
  color_temperature : Option (Fin 65536) := none
  effect : Option Effect := none
  transition_time : Option (Fin 65536) := none

/-- `StaticStateModifier::new`. -/
def StaticStateModifier.new : StaticStateModifier := {}

/-- `StaticStateModifier::with_color`: set the coordinates and, only if the
color carries a brightness, the brightness. -/
def StaticStateModifier.with_color (self : StaticStateModifier) (value : Color) :
    StaticStateModifier :=
  let modifier := { self with color_space_coordinates := some value.space_coordinates }
  match value.brightness with
  | some brightness => { modifier with brightness := some brightness }
  | none => modifier

/-- The `to_override` arm of the `custom_serialize!` macro: only an
`Override` produces the plain field's value. -/
def to_override {T : Type} : Option (Adjust T) → Option T
  | some (.Override v) => some v
  | _ => none

/-- The `to_increment` arm of the macro: `Increment(v)` yields `v as $t`,
`Decrement(v)` yields `-(v as $t)`, anything else yields nothing.  `$t` is
`i16` for `u8` attributes (bri, sat) and `i32` for `u16` attributes (hue,
ct); both casts are value-preserving on those ranges, so the cast is the
coercion into `ℤ`. -/
def to_increment {n : Nat} : Option (Adjust (Fin n)) → Option ℤ
  | some (.Increment v) => some (v.val : ℤ)
  | some (.Decrement v) => some (-(v.val : ℤ))
  | _ => none

/-- The `to_increment_tuple` arm of the macro, used for the f32 coordinate
pair: componentwise identity for `Increment` and negation for `Decrement`
(f32 negation is exact). -/
def to_increment_tuple : Option (Adjust (ℚ × ℚ)) → Option (ℚ × ℚ)
  | some (.Increment v) => some (v.1, v.2)
  | some (.Decrement v) => some (-v.1, -v.2)
  | _ => none

/-- One field of the serialized struct: a `Some` value is emitted under its
wire name, a `None` contributes nothing. -/
def optEntry (k : String) : Option Json → List (String × Json)
  | none => []
  | some v => [(k, v)]

/-- Serde serialization of an f32 pair: a two-element JSON array. -/
def pairJson (p : ℚ × ℚ) : Json := .arr [.num p.1, .num p.2]

/-- The `custom_serialize!` expansion for `StateModifier` (src/resource/
light.rs): the emitted fields, in the macro's fixed order, with unset
attributes omitted. -/
def StateModifier.serializeEntries (m : StateModifier) : List (String × Json) :=
  optEntry "on" (m.on'.map Json.bool) ++
  (optEntry "bri" ((to_override m.brightness).map (fun v => Json.num v.val)) ++
  (optEntry "bri_inc" ((to_increment m.brightness).map (fun v => Json.num (v : ℚ))) ++
  (optEntry "hue" ((to_override m.hue).map (fun v => Json.num v.val)) ++
  (optEntry "hue_inc" ((to_increment m.hue).map (fun v => Json.num (v : ℚ))) ++
  (optEntry "sat" ((to_override m.saturation).map (fun v => Json.num v.val)) ++
  (optEntry "sat_inc" ((to_increment m.saturation).map (fun v => Json.num (v : ℚ))) ++
  (optEntry "xy" ((to_override m.color_space_coordinates).map pairJson) ++
  (optEntry "xy_inc" ((to_increment_tuple m.color_space_coordinates).map pairJson) ++
  (optEntry "ct" ((to_override m.color_temperature).map (fun v => Json.num v.val)) ++
  (optEntry "ct_inc" ((to_increment m.color_temperature).map (fun v => Json.num (v : ℚ))) ++
  (optEntry "alert" (m.alert.map Alert.serialize) ++
  (optEntry "effect" (m.effect.map Effect.serialize) ++
  optEntry "transitiontime" (m.transition_time.map (fun v => Json.num v.val))))))))))))))

/-- `impl Serialize for StateModifier`: the JSON object of the emitted
fields. -/
def StateModifier.serialize (m : StateModifier) : Json := .obj m.serializeEntries

/-! ## Response protocol (src/response.rs) -/

/-- Abstract serde decode failure (the message text is irrelevant to every
claim; only which decodes fail matters). -/
inductive DecodeError where
  | invalidType : DecodeError
  | missingField : String → DecodeError
  | invalidValue : DecodeError
  | unknownVariant : DecodeError
deriving DecidableEq

/-- `response::ErrorKind`, `#[repr(u16)]` with `Deserialize_repr`.  The
written discriminants are the documented bridge codes; `UnkownError` (sic)
carries no explicit discriminant and therefore gets 902, one past
`InternalError = 901`. -/
inductive ErrorKind where
  | UnauthorizedUser : ErrorKind
  | BodyContainsInvalidJson : ErrorKind
  | ResourceNotAvailable : ErrorKind
  | MethodNotAvailableForResource : ErrorKind
  | MissingParametersInBody : ErrorKind
  | ParameterNotAvailable : ErrorKind
  | InvalidValueForParameter : ErrorKind
  | ParameterIsNotModifiable : ErrorKind
  | TooManyItemsInList : ErrorKind
  | PortalConnectionRequired : ErrorKind
  | LinkButtonNotPressed : ErrorKind
  | DHCPCannotBeDisabled : ErrorKind
  | InvalidUpdateState : ErrorKind
  | DeviceIsSetToOff : ErrorKind
  | CommissionableLightListIsFull : ErrorKind
  | GroupTableIsFull : ErrorKind
  | UpdateOrDeleteGroupOfThisTypeNotAllowed : ErrorKind
  | LightAlreadyUsedInAnotherRoom : ErrorKind
  | SceneCouldNotBeCreatedBufferIsFull : ErrorKind
  | SceneCouldNotBeRemoved : ErrorKind
  | SceneCouldNotBeCreatedGroupIsEmpty : ErrorKind
  | NotAllowedToCreateSensorType : ErrorKind
  | SensorListIsFull : ErrorKind
  | CommissionableSensorListIsFull : ErrorKind
  | RuleEngineFull : ErrorKind
  | ConditionError : ErrorKind
  | ActionError : ErrorKind
  | UnableToActivate : ErrorKind
  | ScheduleListIsFull : ErrorKind
  | ScheduleTimezoneNotValid : ErrorKind
  | ScheduleCannotSetTimeAndLocalTime : ErrorKind
  | CannotCreateSchedule : ErrorKind
  | CannotEnableScheduleTimeInPast : ErrorKind
  | CommandError : ErrorKind
  | SourceModelInvalid : ErrorKind
  | SourceFactoryNew : ErrorKind
  | InvalidState : ErrorKind
  | InternalError : ErrorKind
  | UnkownError : ErrorKind
deriving DecidableEq

/-- The discriminant table `serde_repr` matches a decoded `u16` against.
There is no `#[serde(other)]` fallback in the source, so a code outside this
table fails the decode; `902` is `UnkownError`'s implicit discriminant. -/
def ErrorKind.fromCode : Nat → Option ErrorKind
  | 1 => some .UnauthorizedUser
  | 2 => some .BodyContainsInvalidJson
  | 3 => some .ResourceNotAvailable
  | 4 => some .MethodNotAvailableForResource
  | 5 => some .MissingParametersInBody
  | 6 => some .ParameterNotAvailable
  | 7 => some .InvalidValueForParameter
  | 8 => some .ParameterIsNotModifiable
  | 11 => some .TooManyItemsInList
  | 12 => some .PortalConnectionRequired
  | 101 => some .LinkButtonNotPressed
  | 110 => some .DHCPCannotBeDisabled
  | 111 => some .InvalidUpdateState
  | 201 => some .DeviceIsSetToOff
  | 203 => some .CommissionableLightListIsFull
  | 301 => some .GroupTableIsFull
  | 305 => some .UpdateOrDeleteGroupOfThisTypeNotAllowed
  | 306 => some .LightAlreadyUsedInAnotherRoom
  | 402 => some .SceneCouldNotBeCreatedBufferIsFull
  | 403 => some .SceneCouldNotBeRemoved
  | 404 => some .SceneCouldNotBeCreatedGroupIsEmpty
  | 501 => some .NotAllowedToCreateSensorType
  | 502 => some .SensorListIsFull
  | 503 => some .CommissionableSensorListIsFull
  | 601 => some .RuleEngineFull
  | 607 => some .ConditionError
  | 608 => some .ActionError
  | 609 => some .UnableToActivate
  | 701 => some .ScheduleListIsFull
  | 702 => some .ScheduleTimezoneNotValid
  | 703 => some .ScheduleCannotSetTimeAndLocalTime
  | 704 => some .CannotCreateSchedule
  | 705 => some .CannotEnableScheduleTimeInPast
  | 706 => some .CommandError
  | 801 => some .SourceModelInvalid
  | 802 => some .SourceFactoryNew
  | 803 => some .InvalidState
  | 901 => some .InternalError
  | 902 => some .UnkownError
  | _ => none

/-- `response::Error`: the error detail object of an `"error"` envelope
(`type` decodes into `kind`). -/
structure ResponseError where
  kind : ErrorKind
  address : String
  description : String
deriving DecidableEq

/-- `response::Response<T>`: a bridge reply entry. -/
inductive Response (T : Type) where
  | Success : T → Response T
  | Error : ResponseError → Response T

/-- `Response::into_result`. -/
def Response.into_result {T : Type} : Response T → Except ResponseError T
  | .Success v => .ok v
  | .Error e => .error e

/-- `response::Modified`: the double-unwrapped mutation outcome. -/
structure Modified where
  address : String
  value : Json

/-- Serde decode of a `String`. -/
def decodeString : Json → Except DecodeError String
  | .str s => .ok s
  | _ => .error .invalidType

/-- Serde decode of a `u16` from a JSON number (must be an integer in
`0..=65535`). -/
def decodeU16 : Json → Except DecodeError Nat
  | .num q =>
    if q.den = 1 ∧ 0 ≤ q.num ∧ q.num ≤ 65535 then .ok q.num.toNat
    else .error .invalidValue
  | _ => .error .invalidType

/-- `Deserialize_repr` for `ErrorKind`: decode the `u16`, then match it
against the discriminant table; an unknown code is a decode failure. -/
def decodeErrorKind (j : Json) : Except DecodeError ErrorKind :=
  match decodeU16 j with
  | .error e => .error e
  | .ok n =>
    match ErrorKind.fromCode n with
    | some k => .ok k
    | none => .error .invalidValue

/-- Derived serde decode of `response::Error` from an object with fields
`type`, `address`, `description` (unknown fields ignored, missing fields
fail). -/
def decodeResponseError (j : Json) : Except DecodeError ResponseError :=
  match j with
  | .obj kvs =>
    match findValue kvs "type" with
    | none => .error (.missingField "type")
    | some t =>
      match decodeErrorKind t with
      | .error e => .error e
      | .ok kind =>
        match findValue kvs "address" with
        | none => .error (.missingField "address")
        | some a =>
          match decodeString a with
          | .error e => .error e
          | .ok address =>
            match findValue kvs "description" with
            | none => .error (.missingField "description")
            | some d =>
              match decodeString d with
              | .error e => .error e
              | .ok description => .ok ⟨kind, address, description⟩
  | _ => .error .invalidType

/-- Derived serde decode of the externally tagged `Response<T>` with
`rename_all = "lowercase"`: a single-key object keyed `"success"` or
`"error"`; any other shape fails. -/
def decodeResponse {T : Type} (dT : Json → Except DecodeError T) :
    Json → Except DecodeError (Response T)
  | .obj [(k, v)] =>
    if k = "success" then
      match dT v with
      | .error e => .error e
      | .ok x => .ok (.Success x)
    else if k = "error" then
      match decodeResponseError v with
      | .error e => .error e
      | .ok e => .ok (.Error e)
    else .error .unknownVariant
  | _ => .error .invalidType

/-- The hand-written visitor for `Modified`: walk the map keeping the last
key/value pair, fail on an empty map; the kept key is the address and the
kept value the new attribute value. -/
def decodeModified (j : Json) : Except DecodeError Modified :=
  match j with
  | .obj kvs =>
    match kvs.getLast? with
    | some (k, v) => .ok ⟨k, v⟩
    | none => .error (.missingField "address")
  | _ => .error .invalidType

/-- Serde's sequence visitor: decode each element in order, failing on the
first element that fails. -/
def decodeElems {T : Type} (d : Json → Except DecodeError T) :
    List Json → Except DecodeError (List T)
  | [] => .ok []
  | x :: xs =>
    match d x with
    | .error e => .error e
    | .ok v =>
      match decodeElems d xs with
      | .error e => .error e
      | .ok vs => .ok (v :: vs)

/-- Serde decode of `Vec<Response<T>>` from a JSON value: must be an array,
elements decoded in order. -/
def decodeVec {T : Type} (d : Json → Except DecodeError T) :
    Json → Except DecodeError (List T)
  | .arr xs => decodeElems d xs
  | _ => .error .invalidType

/-! ## Bridge operations (src/bridge.rs, src/bridge/register.rs,
src/resource/mod.rs).  The HTTP transport is abstracted: each operation is a
function of the raw JSON value of the bridge's reply.  `crate::Error` is
modeled restricted to the variants reachable in these operations (the
snapshot's error.rs predates the `GetCreatedId` variant that bridge.rs
uses; the variant is taken from its uses in bridge.rs). -/

/-- `crate::Error`, restricted to the variants the modeled operations
produce. -/
inductive HueError where
  | GetUsername : HueError
  | GetCreatedId : HueError
  | ParseJson : DecodeError → HueError
  | Response : ResponseError → HueError
deriving DecidableEq

/-- `Modifier::execute` / `Bridge::set_light_state` response handling:
decode the reply as `Vec<Response<Modified>>` and return the whole decoded
sequence unchanged; `Error` entries are data, not failures. -/
def Modifier.execute (raw : Json) : Except HueError (List (Response Modified)) :=
  match decodeVec (decodeResponse decodeModified) raw with
  | .error e => .error (.ParseJson e)
  | .ok v => .ok v

/-- The `CreationInfo { id: String }` helper struct inside
`Creator::execute`. -/
structure CreationInfo where
  id : String

/-- Serde decode of `CreationInfo`: requires an object with an `id` string
field (a success payload without `id` fails the decode of the whole
response vector). -/
def decodeCreationInfo : Json → Except DecodeError CreationInfo
  | .obj kvs =>
    match findValue kvs "id" with
    | none => .error (.missingField "id")
    | some j =>
      match decodeString j with
      | .error e => .error e
      | .ok s => .ok ⟨s⟩
  | _ => .error .invalidType

/-- `Creator::execute` response handling (src/resource/mod.rs): decode as
`Vec<Response<CreationInfo>>`, pop the last entry, convert it into a result
and project the id; an empty vector is `GetCreatedId`. -/
def Creator.execute (raw : Json) : Except HueError String :=
  match decodeVec (decodeResponse decodeCreationInfo) raw with
  | .error e => .error (.ParseJson e)
  | .ok response =>
    match response.getLast? with
    | some v =>
      match v.into_result with
      | .error e => .error (.Response e)
      | .ok info => .ok info.id
    | none => .error .GetCreatedId

/-- Serde decode of `HashMap<String, String>` from a JSON object (all
values must be strings). -/
def decodeStringMap : Json → Except DecodeError (List (String × String))
  | .obj kvs =>
    (kvs.foldr (fun kv acc =>
      match decodeString kv.2, acc with
      | .ok s, .ok rest => .ok ((kv.1, s) :: rest)
      | .error e, _ => .error e
      | _, .error e => .error e) (.ok []))
  | _ => .error .invalidType

/-- `HashMap::get("id")` on the decoded string map. -/
def getId? : List (String × String) → Option String
  | [] => none
  | (k, v) :: rest => if k = "id" then some v else getId? rest

/-- `Bridge::create_group` (and the identical create_scene/create_schedule/
create_resourcelink/create_rule) response handling: decode as
`Vec<Response<HashMap<String, String>>>`, pop the last entry; an `Error`
entry propagates; a success map without `"id"`, or an empty vector, is
`GetCreatedId`. -/
def create_group (raw : Json) : Except HueError String :=
  match decodeVec (decodeResponse decodeStringMap) raw with
  | .error e => .error (.ParseJson e)
  | .ok response =>
    match response.getLast? with
    | some v =>
      match v.into_result with
      | .error e => .error (.Response e)
      | .ok m =>
        match getId? m with
        | some v => .ok v
        | none => .error .GetCreatedId
    | none => .error .GetCreatedId

/-- `parse_response` (src/bridge.rs), used by every GET operation: probe the
raw payload as `Vec<Response<JsonValue>>`; when that parses, pop the last
entry and let an error entry abort; otherwise (and when no error aborted)
decode the same payload as the expected type `T`. -/
def parse_response {T : Type} (dT : Json → Except DecodeError T) (response : Json) :
    Except HueError T :=
  match decodeVec (decodeResponse .ok) response with
  | .ok v =>
    match v.getLast? with
    | some r =>
      match r.into_result with
      | .error e => .error (.Response e)
      | .ok _ =>
        match dT response with
        | .error e => .error (.ParseJson e)
        | .ok t => .ok t
    | none =>
      match dT response with
      | .error e => .error (.ParseJson e)
      | .ok t => .ok t
  | .error _ =>
    match dT response with
    | .error e => .error (.ParseJson e)
    | .ok t => .ok t

/-- The `User` struct of src/bridge.rs: registration result with the
`username` field (renamed to `name`) and an optional `clientkey`. -/
structure User where
  name : String
  clientkey : Option String
deriving DecidableEq

/-- Serde decode of `User`: `username` required; `clientkey` is an
`Option<String>`, absent or null decoding to `none`. -/
def decodeUser : Json → Except DecodeError User
  | .obj kvs =>
    (match findValue kvs "username" with
     | none => .error (.missingField "username")
     | some j =>
       match decodeString j with
       | .error e => .error e
       | .ok name =>
         match findValue kvs "clientkey" with
         | none => .ok ⟨name, none⟩
         | some .null => .ok ⟨name, none⟩
         | some j' =>
           match decodeString j' with
           | .error e => .error e
           | .ok ck => .ok ⟨name, some ck⟩)
  | _ => .error .invalidType

/-- The request body `register_user` formats: `{"devicetype": d}` plus
`"generateclientkey": true` exactly when the caller set the flag (modeled
as the JSON object the format string prints). -/
def register_request_body (devicetype : String) (generate_clientkey : Bool) : Json :=
  if generate_clientkey then
    .obj [("devicetype", .str devicetype), ("generateclientkey", .bool true)]
  else
    .obj [("devicetype", .str devicetype)]

/-- `register_user` response handling (src/bridge.rs): decode as
`Vec<Response<User>>`, pop the last entry; a success yields the user, an
error entry propagates verbatim, and an empty vector is `GetUsername`. -/
def register_user (raw : Json) : Except HueError User :=
  match decodeVec (decodeResponse decodeUser) raw with
  | .error e => .error (.ParseJson e)
  | .ok responses =>
    match responses.getLast? with
    | some v =>
      match v.into_result with
      | .error e => .error (.Response e)
      | .ok u => .ok u
    | none => .error .GetUsername

/-! ## Spec-side color pipeline
Second definitions following the words of spec §4.1, for refinement
comparison against `Color.from_rgb` (which is translated from the code).
`powf` is the same abstracted `f32::powf`. -/

/-- Follows the spec wording: gamma correction
`c ≤ 0.04045 → c/12.92`, else `((c+0.055)/1.055)^2.4`. -/
def spec_gamma (powf : ℚ → ℚ → ℚ) (c : ℚ) : ℚ :=
  if c ≤ 0.04045 then c / 12.92 else powf ((c + 0.055) / 1.055) 2.4

/-- Follows the spec wording: the fixed XYZ matrix
`X = 0.649926R+0.103455G+0.197109B`, `Y = 0.234327R+0.743075G+0.022598B`,
`Z = 0.000000R+0.053077G+1.035763B` applied to the gamma-corrected
normalized channels. -/
def spec_XYZ (powf : ℚ → ℚ → ℚ) (red green blue : Nat) : ℚ × ℚ × ℚ :=
  (0.649926 * spec_gamma powf ((red : ℚ) / 255) + 0.103455 * spec_gamma powf ((green : ℚ) / 255)
      + 0.197109 * spec_gamma powf ((blue : ℚ) / 255),
   0.234327 * spec_gamma powf ((red : ℚ) / 255) + 0.743075 * spec_gamma powf ((green : ℚ) / 255)
      + 0.022598 * spec_gamma powf ((blue : ℚ) / 255),
   0.000000 * spec_gamma powf ((red : ℚ) / 255) + 0.053077 * spec_gamma powf ((green : ℚ) / 255)
      + 1.035763 * spec_gamma powf ((blue : ℚ) / 255))

/-- The amended brightness per the code's behavior: `Y*255` truncated toward
zero and clamped to `u8` (the saturating `as u8` cast). -/
def spec_trunc_brightness (powf : ℚ → ℚ → ℚ) (red green blue : Nat) : Fin 256 :=
  ⟨min (Int.toNat ⌊(spec_XYZ powf red green blue).2.1 * 255⌋) 255,
    Nat.lt_succ_of_le (Nat.min_le_right _ _)⟩

/-- Follows the claim wording: brightness as `round(Y*255)` clamped to a
`u8` -- what the spec asserts and the code does not do. -/
def spec_round_brightness (powf : ℚ → ℚ → ℚ) (red green blue : Nat) : Fin 256 :=
  ⟨min (Int.toNat (round ((spec_XYZ powf red green blue).2.1 * 255))) 255,
    Nat.lt_succ_of_le (Nat.min_le_right _ _)⟩

/-- Follows the spec wording: chromaticity `x = X/(X+Y+Z)`, `y = Y/(X+Y+Z)`
with `f32::MIN_POSITIVE` added to the denominator as the zero guard, and the
(amended, truncating) brightness. -/
def spec_color (powf : ℚ → ℚ → ℚ) (red green blue : Nat) : Color :=
  { space_coordinates :=
      ((spec_XYZ powf red green blue).1 /
        ((spec_XYZ powf red green blue).1 + (spec_XYZ powf red green blue).2.1 +
          (spec_XYZ powf red green blue).2.2 + f32_min_positive),
       (spec_XYZ powf red green blue).2.1 /
        ((spec_XYZ powf red green blue).1 + (spec_XYZ powf red green blue).2.1 +
          (spec_XYZ powf red green blue).2.2 + f32_min_positive)),
    brightness := some (spec_trunc_brightness powf red green blue) }

/-! ## Helper lemmas -/

/-- A recognized hexadecimal digit has value below 16. -/
lemma hexDigitVal?_lt {c : Char} {d : Nat} (h : hexDigitVal? c = some d) : d < 16 := by
  unfold hexDigitVal? at h
  split_ifs at h with h1 h2 h3 <;> injection h with h <;> omega

/-- A recognized hexadecimal digit is not the sign character. -/
lemma hexDigitVal?_ne_plus {c : Char} {d : Nat} (h : hexDigitVal? c = some d) : c ≠ '+' := by
  rintro rfl
  rw [show hexDigitVal? '+' = none from rfl] at h
  exact Option.noConfusion h

/-- `from_str_radix` on a single hexadecimal digit. -/
lemma fromStrRadix16U8_one {c : Char} {d : Nat} (h : hexDigitVal? c = some d) :
    fromStrRadix16U8 [c] = .ok d := by
  have hlt := hexDigitVal?_lt h
  have hne := hexDigitVal?_ne_plus h
  simp only [fromStrRadix16U8, if_neg hne, fromStrRadix16U8Go, h]
  rw [if_neg (by omega), if_neg (by omega)]
  simp [fromStrRadix16U8Go]

/-- `from_str_radix` on two hexadecimal digits: no `u8` overflow is
possible, and the value is `16 * high + low`. -/
lemma fromStrRadix16U8_two {c c' : Char} {d d' : Nat}
    (h : hexDigitVal? c = some d) (h' : hexDigitVal? c' = some d') :
    fromStrRadix16U8 [c, c'] = .ok (16 * d + d') := by
  have hlt := hexDigitVal?_lt h
  have hlt' := hexDigitVal?_lt h'
  have hne := hexDigitVal?_ne_plus h
  simp only [fromStrRadix16U8, if_neg hne, fromStrRadix16U8Go, h, h']
  rw [if_neg (by omega), if_neg (by omega), if_neg (by omega), if_neg (by omega)]
  simp [fromStrRadix16U8Go]
  omega

/-- Elements that decode pointwise decode as a sequence, in the same
order. -/
lemma decodeElems_of_forall₂ {T : Type} {d : Json → Except DecodeError T}
    {elems : List Json} {entries : List T}
    (h : List.Forall₂ (fun e r => d e = .ok r) elems entries) :
    decodeElems d elems = .ok entries := by
  induction h with
  | nil => rfl
  | cons h₁ _ ih => simp [decodeElems, h₁, ih]

/-- The two gamma-correction formulations (code's strict-greater test, the
spec's less-or-equal test, and `1.0 + 0.055` against `1.055`) agree. -/
lemma gamma_correct_eq_spec_gamma (powf : ℚ → ℚ → ℚ) (v : ℚ) :
    gamma_correct powf v = spec_gamma powf v := by
  unfold gamma_correct spec_gamma
  rcases le_or_lt v 0.04045 with h | h
  · rw [if_neg (not_lt.mpr h), if_pos h]
  · rw [if_pos h, if_neg (not_le.mpr h)]
    norm_num

/-- Looking a key up past an entry with a different key. -/
lemma findValue_optEntry_ne {k k' : String} (h : k ≠ k') (o : Option Json)
    (rest : List (String × Json)) :
    findValue (optEntry k' o ++ rest) k = findValue rest k := by
  cases o <;> simp [optEntry, findValue, h]

/-- Looking a key up in a final entry with a different key. -/
lemma findValue_optEntry_ne_single {k k' : String} (h : k ≠ k') (o : Option Json) :
    findValue (optEntry k' o) k = none := by
  cases o <;> simp [optEntry, findValue, h]

/-- Looking a key up at its own entry, when no later entry repeats it. -/
lemma findValue_optEntry_self (k : String) (o : Option Json) (rest : List (String × Json))
    (hrest : findValue rest k = none) :
    findValue (optEntry k o ++ rest) k = o := by
  cases o <;> simp [optEntry, findValue, hrest]

/-- The serialized entry list of a `StateModifier` holds key `"bri"` exactly as the macro arm computes it. -/
lemma serializeEntries_bri (m : StateModifier) :
    findValue m.serializeEntries "bri" = (to_override m.brightness).map (fun v => Json.num v.val) := by
  unfold StateModifier.serializeEntries
  rw [findValue_optEntry_ne (show ("bri" : String) ≠ "on" by decide)]
  rw [findValue_optEntry_self]
  rw [findValue_optEntry_ne (show ("bri" : String) ≠ "bri_inc" by decide)]
  rw [findValue_optEntry_ne (show ("bri" : String) ≠ "hue" by decide)]
  rw [findValue_optEntry_ne (show ("bri" : String) ≠ "hue_inc" by decide)]
  rw [findValue_optEntry_ne (show ("bri" : String) ≠ "sat" by decide)]
  rw [findValue_optEntry_ne (show ("bri" : String) ≠ "sat_inc" by decide)]
  rw [findValue_optEntry_ne (show ("bri" : String) ≠ "xy" by decide)]
  rw [findValue_optEntry_ne (show ("bri" : String) ≠ "xy_inc" by decide)]
  rw [findValue_optEntry_ne (show ("bri" : String) ≠ "ct" by decide)]
  rw [findValue_optEntry_ne (show ("bri" : String) ≠ "ct_inc" by decide)]
  rw [findValue_optEntry_ne (show ("bri" : String) ≠ "alert" by decide)]
  rw [findValue_optEntry_ne (show ("bri" : String) ≠ "effect" by decide)]
  exact findValue_optEntry_ne_single (show ("bri" : String) ≠ "transitiontime" by decide) _

/-- The serialized entry list of a `StateModifier` holds key `"bri_inc"` exactly as the macro arm computes it. -/
lemma serializeEntries_bri_inc (m : StateModifier) :
    findValue m.serializeEntries "bri_inc" = (to_increment m.brightness).map (fun v => Json.num (v : ℚ)) := by
  unfold StateModifier.serializeEntries
  rw [findValue_optEntry_ne (show ("bri_inc" : String) ≠ "on" by decide)]
  rw [findValue_optEntry_ne (show ("bri_inc" : String) ≠ "bri" by decide)]
  rw [findValue_optEntry_self]
  rw [findValue_optEntry_ne (show ("bri_inc" : String) ≠ "hue" by decide)]
  rw [findValue_optEntry_ne (show ("bri_inc" : String) ≠ "hue_inc" by decide)]
  rw [findValue_optEntry_ne (show ("bri_inc" : String) ≠ "sat" by decide)]
  rw [findValue_optEntry_ne (show ("bri_inc" : String) ≠ "sat_inc" by decide)]
  rw [findValue_optEntry_ne (show ("bri_inc" : String) ≠ "xy" by decide)]
  rw [findValue_optEntry_ne (show ("bri_inc" : String) ≠ "xy_inc" by decide)]
  rw [findValue_optEntry_ne (show ("bri_inc" : String) ≠ "ct" by decide)]
  rw [findValue_optEntry_ne (show ("bri_inc" : String) ≠ "ct_inc" by decide)]
  rw [findValue_optEntry_ne (show ("bri_inc" : String) ≠ "alert" by decide)]
  rw [findValue_optEntry_ne (show ("bri_inc" : String) ≠ "effect" by decide)]
  exact findValue_optEntry_ne_single (show ("bri_inc" : String) ≠ "transitiontime" by decide) _

/-- The serialized entry list of a `StateModifier` holds key `"hue"` exactly as the macro arm computes it. -/
lemma serializeEntries_hue (m : StateModifier) :
    findValue m.serializeEntries "hue" = (to_override m.hue).map (fun v => Json.num v.val) := by
  unfold StateModifier.serializeEntries
  rw [findValue_optEntry_ne (show ("hue" : String) ≠ "on" by decide)]
  rw [findValue_optEntry_ne (show ("hue" : String) ≠ "bri" by decide)]
  rw [findValue_optEntry_ne (show ("hue" : String) ≠ "bri_inc" by decide)]
  rw [findValue_optEntry_self]
  rw [findValue_optEntry_ne (show ("hue" : String) ≠ "hue_inc" by decide)]
  rw [findValue_optEntry_ne (show ("hue" : String) ≠ "sat" by decide)]
  rw [findValue_optEntry_ne (show ("hue" : String) ≠ "sat_inc" by decide)]
  rw [findValue_optEntry_ne (show ("hue" : String) ≠ "xy" by decide)]
  rw [findValue_optEntry_ne (show ("hue" : String) ≠ "xy_inc" by decide)]
  rw [findValue_optEntry_ne (show ("hue" : String) ≠ "ct" by decide)]
  rw [findValue_optEntry_ne (show ("hue" : String) ≠ "ct_inc" by decide)]
  rw [findValue_optEntry_ne (show ("hue" : String) ≠ "alert" by decide)]
  rw [findValue_optEntry_ne (show ("hue" : String) ≠ "effect" by decide)]
  exact findValue_optEntry_ne_single (show ("hue" : String) ≠ "transitiontime" by decide) _

/-- The serialized entry list of a `StateModifier` holds key `"hue_inc"` exactly as the macro arm computes it. -/
lemma serializeEntries_hue_inc (m : StateModifier) :
    findValue m.serializeEntries "hue_inc" = (to_increment m.hue).map (fun v => Json.num (v : ℚ)) := by
  unfold StateModifier.serializeEntries
  rw [findValue_optEntry_ne (show ("hue_inc" : String) ≠ "on" by decide)]
  rw [findValue_optEntry_ne (show ("hue_inc" : String) ≠ "bri" by decide)]
  rw [findValue_optEntry_ne (show ("hue_inc" : String) ≠ "bri_inc" by decide)]
  rw [findValue_optEntry_ne (show ("hue_inc" : String) ≠ "hue" by decide)]
  rw [findValue_optEntry_self]
  rw [findValue_optEntry_ne (show ("hue_inc" : String) ≠ "sat" by decide)]
  rw [findValue_optEntry_ne (show ("hue_inc" : String) ≠ "sat_inc" by decide)]
  rw [findValue_optEntry_ne (show ("hue_inc" : String) ≠ "xy" by decide)]
  rw [findValue_optEntry_ne (show ("hue_inc" : String) ≠ "xy_inc" by decide)]
  rw [findValue_optEntry_ne (show ("hue_inc" : String) ≠ "ct" by decide)]
  rw [findValue_optEntry_ne (show ("hue_inc" : String) ≠ "ct_inc" by decide)]
  rw [findValue_optEntry_ne (show ("hue_inc" : String) ≠ "alert" by decide)]
  rw [findValue_optEntry_ne (show ("hue_inc" : String) ≠ "effect" by decide)]
  exact findValue_optEntry_ne_single (show ("hue_inc" : String) ≠ "transitiontime" by decide) _

/-- The serialized entry list of a `StateModifier` holds key `"sat"` exactly as the macro arm computes it. -/
lemma serializeEntries_sat (m : StateModifier) :
    findValue m.serializeEntries "sat" = (to_override m.saturation).map (fun v => Json.num v.val) := by
  unfold StateModifier.serializeEntries
  rw [findValue_optEntry_ne (show ("sat" : String) ≠ "on" by decide)]
  rw [findValue_optEntry_ne (show ("sat" : String) ≠ "bri" by decide)]
  rw [findValue_optEntry_ne (show ("sat" : String) ≠ "bri_inc" by decide)]
  rw [findValue_optEntry_ne (show ("sat" : String) ≠ "hue" by decide)]
  rw [findValue_optEntry_ne (show ("sat" : String) ≠ "hue_inc" by decide)]
  rw [findValue_optEntry_self]
  rw [findValue_optEntry_ne (show ("sat" : String) ≠ "sat_inc" by decide)]
  rw [findValue_optEntry_ne (show ("sat" : String) ≠ "xy" by decide)]
  rw [findValue_optEntry_ne (show ("sat" : String) ≠ "xy_inc" by decide)]
  rw [findValue_optEntry_ne (show ("sat" : String) ≠ "ct" by decide)]
  rw [findValue_optEntry_ne (show ("sat" : String) ≠ "ct_inc" by decide)]
  rw [findValue_optEntry_ne (show ("sat" : String) ≠ "alert" by decide)]
  rw [findValue_optEntry_ne (show ("sat" : String) ≠ "effect" by decide)]
  exact findValue_optEntry_ne_single (show ("sat" : String) ≠ "transitiontime" by decide) _

/-- The serialized entry list of a `StateModifier` holds key `"sat_inc"` exactly as the macro arm computes it. -/
lemma serializeEntries_sat_inc (m : StateModifier) :
    findValue m.serializeEntries "sat_inc" = (to_increment m.saturation).map (fun v => Json.num (v : ℚ)) := by
  unfold StateModifier.serializeEntries
  rw [findValue_optEntry_ne (show ("sat_inc" : String) ≠ "on" by decide)]
  rw [findValue_optEntry_ne (show ("sat_inc" : String) ≠ "bri" by decide)]
  rw [findValue_optEntry_ne (show ("sat_inc" : String) ≠ "bri_inc" by decide)]
  rw [findValue_optEntry_ne (show ("sat_inc" : String) ≠ "hue" by decide)]
  rw [findValue_optEntry_ne (show ("sat_inc" : String) ≠ "hue_inc" by decide)]
  rw [findValue_optEntry_ne (show ("sat_inc" : String) ≠ "sat" by decide)]
  rw [findValue_optEntry_self]
  rw [findValue_optEntry_ne (show ("sat_inc" : String) ≠ "xy" by decide)]
  rw [findValue_optEntry_ne (show ("sat_inc" : String) ≠ "xy_inc" by decide)]
  rw [findValue_optEntry_ne (show ("sat_inc" : String) ≠ "ct" by decide)]
  rw [findValue_optEntry_ne (show ("sat_inc" : String) ≠ "ct_inc" by decide)]
  rw [findValue_optEntry_ne (show ("sat_inc" : String) ≠ "alert" by decide)]
  rw [findValue_optEntry_ne (show ("sat_inc" : String) ≠ "effect" by decide)]
  exact findValue_optEntry_ne_single (show ("sat_inc" : String) ≠ "transitiontime" by decide) _

/-- The serialized entry list of a `StateModifier` holds key `"xy"` exactly as the macro arm computes it. -/
lemma serializeEntries_xy (m : StateModifier) :
    findValue m.serializeEntries "xy" = (to_override m.color_space_coordinates).map pairJson := by
  unfold StateModifier.serializeEntries
  rw [findValue_optEntry_ne (show ("xy" : String) ≠ "on" by decide)]
  rw [findValue_optEntry_ne (show ("xy" : String) ≠ "bri" by decide)]
  rw [findValue_optEntry_ne (show ("xy" : String) ≠ "bri_inc" by decide)]
  rw [findValue_optEntry_ne (show ("xy" : String) ≠ "hue" by decide)]
  rw [findValue_optEntry_ne (show ("xy" : String) ≠ "hue_inc" by decide)]
  rw [findValue_optEntry_ne (show ("xy" : String) ≠ "sat" by decide)]
  rw [findValue_optEntry_ne (show ("xy" : String) ≠ "sat_inc" by decide)]
  rw [findValue_optEntry_self]
  rw [findValue_optEntry_ne (show ("xy" : String) ≠ "xy_inc" by decide)]
  rw [findValue_optEntry_ne (show ("xy" : String) ≠ "ct" by decide)]
  rw [findValue_optEntry_ne (show ("xy" : String) ≠ "ct_inc" by decide)]
  rw [findValue_optEntry_ne (show ("xy" : String) ≠ "alert" by decide)]
  rw [findValue_optEntry_ne (show ("xy" : String) ≠ "effect" by decide)]
  exact findValue_optEntry_ne_single (show ("xy" : String) ≠ "transitiontime" by decide) _

/-- The serialized entry list of a `StateModifier` holds key `"xy_inc"` exactly as the macro arm computes it. -/
lemma serializeEntries_xy_inc (m : StateModifier) :
    findValue m.serializeEntries "xy_inc" = (to_increment_tuple m.color_space_coordinates).map pairJson := by
  unfold StateModifier.serializeEntries
  rw [findValue_optEntry_ne (show ("xy_inc" : String) ≠ "on" by decide)]
  rw [findValue_optEntry_ne (show ("xy_inc" : String) ≠ "bri" by decide)]
  rw [findValue_optEntry_ne (show ("xy_inc" : String) ≠ "bri_inc" by decide)]
  rw [findValue_optEntry_ne (show ("xy_inc" : String) ≠ "hue" by decide)]
  rw [findValue_optEntry_ne (show ("xy_inc" : String) ≠ "hue_inc" by decide)]
  rw [findValue_optEntry_ne (show ("xy_inc" : String) ≠ "sat" by decide)]
  rw [findValue_optEntry_ne (show ("xy_inc" : String) ≠ "sat_inc" by decide)]
  rw [findValue_optEntry_ne (show ("xy_inc" : String) ≠ "xy" by decide)]
  rw [findValue_optEntry_self]
  rw [findValue_optEntry_ne (show ("xy_inc" : String) ≠ "ct" by decide)]
  rw [findValue_optEntry_ne (show ("xy_inc" : String) ≠ "ct_inc" by decide)]
  rw [findValue_optEntry_ne (show ("xy_inc" : String) ≠ "alert" by decide)]
  rw [findValue_optEntry_ne (show ("xy_inc" : String) ≠ "effect" by decide)]
  exact findValue_optEntry_ne_single (show ("xy_inc" : String) ≠ "transitiontime" by decide) _

/-- The serialized entry list of a `StateModifier` holds key `"ct"` exactly as the macro arm computes it. -/
lemma serializeEntries_ct (m : StateModifier) :
    findValue m.serializeEntries "ct" = (to_override m.color_temperature).map (fun v => Json.num v.val) := by
  unfold StateModifier.serializeEntries
  rw [findValue_optEntry_ne (show ("ct" : String) ≠ "on" by decide)]
  rw [findValue_optEntry_ne (show ("ct" : String) ≠ "bri" by decide)]
  rw [findValue_optEntry_ne (show ("ct" : String) ≠ "bri_inc" by decide)]
  rw [findValue_optEntry_ne (show ("ct" : String) ≠ "hue" by decide)]
  rw [findValue_optEntry_ne (show ("ct" : String) ≠ "hue_inc" by decide)]
  rw [findValue_optEntry_ne (show ("ct" : String) ≠ "sat" by decide)]
  rw [findValue_optEntry_ne (show ("ct" : String) ≠ "sat_inc" by decide)]
  rw [findValue_optEntry_ne (show ("ct" : String) ≠ "xy" by decide)]
  rw [findValue_optEntry_ne (show ("ct" : String) ≠ "xy_inc" by decide)]
  rw [findValue_optEntry_self]
  rw [findValue_optEntry_ne (show ("ct" : String) ≠ "ct_inc" by decide)]
  rw [findValue_optEntry_ne (show ("ct" : String) ≠ "alert" by decide)]
  rw [findValue_optEntry_ne (show ("ct" : String) ≠ "effect" by decide)]
  exact findValue_optEntry_ne_single (show ("ct" : String) ≠ "transitiontime" by decide) _

/-- The serialized entry list of a `StateModifier` holds key `"ct_inc"` exactly as the macro arm computes it. -/
lemma serializeEntries_ct_inc (m : StateModifier) :
    findValue m.serializeEntries "ct_inc" = (to_increment m.color_temperature).map (fun v => Json.num (v : ℚ)) := by
  unfold StateModifier.serializeEntries
  rw [findValue_optEntry_ne (show ("ct_inc" : String) ≠ "on" by decide)]
  rw [findValue_optEntry_ne (show ("ct_inc" : String) ≠ "bri" by decide)]
  rw [findValue_optEntry_ne (show ("ct_inc" : String) ≠ "bri_inc" by decide)]
  rw [findValue_optEntry_ne (show ("ct_inc" : String) ≠ "hue" by decide)]
  rw [findValue_optEntry_ne (show ("ct_inc" : String) ≠ "hue_inc" by decide)]
  rw [findValue_optEntry_ne (show ("ct_inc" : String) ≠ "sat" by decide)]
  rw [findValue_optEntry_ne (show ("ct_inc" : String) ≠ "sat_inc" by decide)]
  rw [findValue_optEntry_ne (show ("ct_inc" : String) ≠ "xy" by decide)]
  rw [findValue_optEntry_ne (show ("ct_inc" : String) ≠ "xy_inc" by decide)]
  rw [findValue_optEntry_ne (show ("ct_inc" : String) ≠ "ct" by decide)]
  rw [findValue_optEntry_self]
  rw [findValue_optEntry_ne (show ("ct_inc" : String) ≠ "alert" by decide)]
  rw [findValue_optEntry_ne (show ("ct_inc" : String) ≠ "effect" by decide)]
  exact findValue_optEntry_ne_single (show ("ct_inc" : String) ≠ "transitiontime" by decide) _

/-! ## Claim theorems -/

/-- C8 (amended): for every RGB triple, `from_rgb` computes the chromaticity
as `x = X/(X+Y+Z)` and `y = Y/(X+Y+Z)` from the gamma-corrected channels and
the fixed 3times3 matrix, guarding the denominator by adding
`f32::MIN_POSITIVE`, and sets the brightness to `Y*255` truncated toward
zero (the saturating `as u8` cast), not rounded. -/
theorem from_rgb_matches_spec_pipeline (powf : ℚ → ℚ → ℚ) (red green blue : Nat) :
    Color.from_rgb powf red green blue = spec_color powf red green blue := by
  simp only [Color.from_rgb, spec_color, spec_XYZ, spec_trunc_brightness, ratAsU8,
    Color.mk.injEq, Prod.mk.injEq, Option.some.injEq, Fin.mk.injEq,
    gamma_correct_eq_spec_gamma]
  refine ⟨⟨?_, ?_⟩, ?_⟩
  · ring
  · ring
  · congr 2
    ring_nf

/-- C8 counterexample: at RGB `(10,10,10)` (gamma takes the powf-free branch,
so the value is independent of the abstracted `powf`) the code's brightness
is `0` -- `Y*255 = 250/323 ≈ 0.774` truncated -- while the claimed
`round(Y*255)` is `1`. -/
theorem from_rgb_brightness_round_counterexample :
    (Color.from_rgb powf0 10 10 10).brightness = some (0 : Fin 256)
    ∧ spec_round_brightness powf0 10 10 10 = (1 : Fin 256) := by
  constructor
  · unfold Color.from_rgb gamma_correct ratAsU8
    norm_num
  · unfold spec_round_brightness spec_XYZ spec_gamma
    norm_num
    apply Fin.ext
    show (round ((250 : ℚ) / 323)).toNat ⊓ 255 = 1
    rw [show round ((250 : ℚ) / 323) = 1 by rw [round_eq]; norm_num [Int.floor_eq_iff]]
    rfl

/-- C10: `with_color` overrides the color-space-coordinates field with the
color's coordinates, overrides the brightness field only when the color
carries a brightness (a `Color` built from raw chromaticity has none, so a
previously set brightness survives), and leaves every other field exactly as
it was -- for both `StateModifier` and `StaticStateModifier`. -/
theorem with_color_sets_only_color_fields (m : StateModifier) (sm : StaticStateModifier)
    (c : Color) :
    ((m.with_color c).color_space_coordinates = some (Adjust.Override c.space_coordinates)
      ∧ (m.with_color c).brightness =
          (match c.brightness with
           | some b => some (Adjust.Override b)
           | none => m.brightness)
      ∧ (m.with_color c).on' = m.on' ∧ (m.with_color c).hue = m.hue
      ∧ (m.with_color c).saturation = m.saturation
      ∧ (m.with_color c).color_temperature = m.color_temperature
      ∧ (m.with_color c).alert = m.alert ∧ (m.with_color c).effect = m.effect
      ∧ (m.with_color c).transition_time = m.transition_time)
    ∧ ((sm.with_color c).color_space_coordinates = some c.space_coordinates
      ∧ (sm.with_color c).brightness =
          (match c.brightness with
           | some b => some b
           | none => sm.brightness)
      ∧ (sm.with_color c).on' = sm.on' ∧ (sm.with_color c).hue = sm.hue
      ∧ (sm.with_color c).saturation = sm.saturation
      ∧ (sm.with_color c).color_temperature = sm.color_temperature
      ∧ (sm.with_color c).effect = sm.effect
      ∧ (sm.with_color c).transition_time = sm.transition_time) := by
  cases hc : c.brightness <;>
    simp [StateModifier.with_color, StaticStateModifier.with_color, hc]

/-- C7: for all bytes R = 16*d1+d2, G = 16*d3+d4, B = 16*d5+d6 written with
any hexadecimal digit characters (case-insensitive), `from_hex "#RRGGBB"`
returns `Ok` of exactly `from_rgb(R, G, B)`; and every 3-digit `"#abc"`
equals `from_hex "#aabbcc"`, each digit expanding by nibble duplication to
`d*16 + d` before delegating to `from_rgb`. -/
theorem from_hex_agrees_with_from_rgb (powf : ℚ → ℚ → ℚ)
    (c1 c2 c3 c4 c5 c6 : Char) (d1 d2 d3 d4 d5 d6 : Nat)
    (h1 : hexDigitVal? c1 = some d1) (h2 : hexDigitVal? c2 = some d2)
    (h3 : hexDigitVal? c3 = some d3) (h4 : hexDigitVal? c4 = some d4)
    (h5 : hexDigitVal? c5 = some d5) (h6 : hexDigitVal? c6 = some d6) :
    Color.from_hex powf ['#', c1, c2, c3, c4, c5, c6]
        = .ok (Color.from_rgb powf (16 * d1 + d2) (16 * d3 + d4) (16 * d5 + d6))
    ∧ Color.from_hex powf ['#', c1, c2, c3]
        = Color.from_hex powf ['#', c1, c1, c2, c2, c3, c3]
    ∧ Color.from_hex powf ['#', c1, c2, c3]
        = .ok (Color.from_rgb powf (d1 * 16 + d1) (d2 * 16 + d2) (d3 * 16 + d3)) := by
  have e12 := fromStrRadix16U8_two h1 h2
  have e34 := fromStrRadix16U8_two h3 h4
  have e56 := fromStrRadix16U8_two h5 h6
  have e11 := fromStrRadix16U8_two h1 h1
  have e22 := fromStrRadix16U8_two h2 h2
  have e33 := fromStrRadix16U8_two h3 h3
  have s1 := fromStrRadix16U8_one h1
  have s2 := fromStrRadix16U8_one h2
  have s3 := fromStrRadix16U8_one h3
  have short : Color.from_hex powf ['#', c1, c2, c3]
      = .ok (Color.from_rgb powf (d1 * 16 + d1) (d2 * 16 + d2) (d3 * 16 + d3)) := by
    simp [Color.from_hex, strSlice, s1, s2, s3]
  refine ⟨?_, ?_, short⟩
  · simp [Color.from_hex, strSlice, e12, e34, e56]
  · rw [short]
    simp [Color.from_hex, strSlice, e11, e22, e33]
    rw [Nat.mul_comm d1 16, Nat.mul_comm d2 16, Nat.mul_comm d3 16]

/-- C7 witness: the theorem applied at the concrete digits `a`, `b`, `c`,
`0`, `F`, `f`. -/
theorem from_hex_agrees_with_from_rgb_witness :
    Color.from_hex powf0 ['#', 'a', 'b', 'c', '0', 'F', 'f']
        = .ok (Color.from_rgb powf0 (16 * 10 + 11) (16 * 12 + 0) (16 * 15 + 15))
    ∧ Color.from_hex powf0 ['#', 'a', 'b', 'c']
        = Color.from_hex powf0 ['#', 'a', 'a', 'b', 'b', 'c', 'c']
    ∧ Color.from_hex powf0 ['#', 'a', 'b', 'c']
        = .ok (Color.from_rgb powf0 (10 * 16 + 10) (11 * 16 + 11) (12 * 16 + 12)) :=
  from_hex_agrees_with_from_rgb powf0 'a' 'b' 'c' '0' 'F' 'f' 10 11 12 0 15 15
    rfl rfl rfl rfl rfl rfl

/-- C9 (amended): `from_hex` dispatches on string length alone -- any length
other than 4 or 7 bytes is `InvalidLenght`, and both `Ok` and `ParseInt`
results occur only at lengths 4 and 7; the leading character is never
examined (see the counterexample), and within an accepted length the digit
slices parse with `u8::from_str_radix` semantics.  In particular
`from_hex "#12"` is `InvalidLenght` and `from_hex "#zzzzzz"` is the
`ParseInt` error for an invalid digit. -/
theorem from_hex_length_and_error_behavior (powf : ℚ → ℚ → ℚ) (s : List Char) :
    (s.length ≠ 4 → s.length ≠ 7 → Color.from_hex powf s = .error .InvalidLenght)
    ∧ (∀ c, Color.from_hex powf s = .ok c → s.length = 4 ∨ s.length = 7)
    ∧ (∀ e, Color.from_hex powf s = .error (.ParseInt e) → s.length = 4 ∨ s.length = 7)
    ∧ Color.from_hex powf ('#' :: '1' :: '2' :: []) = .error .InvalidLenght
    ∧ Color.from_hex powf ('#' :: 'z' :: 'z' :: 'z' :: 'z' :: 'z' :: 'z' :: [])
        = .error (.ParseInt .InvalidDigit) := by
  have hinv : s.length ≠ 4 → s.length ≠ 7 →
      Color.from_hex powf s = .error .InvalidLenght := by
    intro h4 h7
    unfold Color.from_hex
    rw [if_neg h4, if_neg h7]
  refine ⟨hinv, ?_, ?_, rfl, rfl⟩
  · intro c hc
    by_contra hn
    push_neg at hn
    rw [hinv hn.1 hn.2] at hc
    exact Except.noConfusion hc
  · intro e he
    by_contra hn
    push_neg at hn
    rw [hinv hn.1 hn.2] at he
    injection he with he
    exact ParseHexError.noConfusion he

/-- C9 witness: the theorem applied at the concrete inputs `"#a"` (length 2,
rejected) and `"0123"` (length 4, accepted). -/
theorem from_hex_length_and_error_behavior_witness :
    Color.from_hex powf0 ('#' :: 'a' :: []) = .error .InvalidLenght
    ∧ (('0' :: '1' :: '2' :: '3' :: ([] : List Char)).length = 4
        ∨ ('0' :: '1' :: '2' :: '3' :: ([] : List Char)).length = 7) := by
  have ha := from_hex_length_and_error_behavior powf0 ('#' :: 'a' :: [])
  have hb := from_hex_length_and_error_behavior powf0 ('0' :: '1' :: '2' :: '3' :: [])
  exact ⟨ha.1 (by decide) (by decide), hb.2.1 (Color.from_rgb powf0 17 34 51) rfl⟩

/-- C9 counterexample: `from_hex` never checks that the string begins with
`#`; the 4-byte string `"0123"` parses successfully (to
`from_rgb(17, 34, 51)`), so acceptance is not limited to `#`-prefixed
strings. -/
theorem from_hex_accepts_missing_hash :
    Color.from_hex powf0 ('0' :: '1' :: '2' :: '3' :: [])
        = .ok (Color.from_rgb powf0 17 34 51)
    ∧ ('0' :: '1' :: '2' :: '3' :: ([] : List Char)).head? ≠ some '#' :=
  ⟨rfl, by decide⟩

/-- C1: serializing a `StateModifier` encodes every `Adjust`-typed
attribute by the fixed rule: `Override(v)` emits the plain wire field with
value `v`; `Increment(v)` emits the `_inc` field with `+v` (cast to the
signed wire integer -- `i16` for bri/sat, `i32` for hue/ct); `Decrement(v)`
emits the `_inc` field with `-v`; tuple increments/decrements emit
`[a, b]` / `[-a, -b]`; an unset attribute contributes no key; and for every
attribute at most one of the plain and `_inc` fields appears. -/
theorem adjust_serialization_rule (m : StateModifier) :
    ((m.brightness = none →
        findValue m.serializeEntries "bri" = none
        ∧ findValue m.serializeEntries "bri_inc" = none)
      ∧ (∀ v, m.brightness = some (Adjust.Override v) →
          findValue m.serializeEntries "bri" = some (Json.num (v.val : ℚ))
          ∧ findValue m.serializeEntries "bri_inc" = none)
      ∧ (∀ v, m.brightness = some (Adjust.Increment v) →
          findValue m.serializeEntries "bri" = none
          ∧ findValue m.serializeEntries "bri_inc" = some (Json.num ((v.val : ℤ) : ℚ)))
      ∧ (∀ v, m.brightness = some (Adjust.Decrement v) →
          findValue m.serializeEntries "bri" = none
          ∧ findValue m.serializeEntries "bri_inc" = some (Json.num ((-(v.val : ℤ) : ℤ) : ℚ)))
      ∧ (findValue m.serializeEntries "bri" = none
          ∨ findValue m.serializeEntries "bri_inc" = none))
    ∧ ((m.hue = none →
        findValue m.serializeEntries "hue" = none
        ∧ findValue m.serializeEntries "hue_inc" = none)
      ∧ (∀ v, m.hue = some (Adjust.Override v) →
          findValue m.serializeEntries "hue" = some (Json.num (v.val : ℚ))
          ∧ findValue m.serializeEntries "hue_inc" = none)
      ∧ (∀ v, m.hue = some (Adjust.Increment v) →
          findValue m.serializeEntries "hue" = none
          ∧ findValue m.serializeEntries "hue_inc" = some (Json.num ((v.val : ℤ) : ℚ)))
      ∧ (∀ v, m.hue = some (Adjust.Decrement v) →
          findValue m.serializeEntries "hue" = none
          ∧ findValue m.serializeEntries "hue_inc" = some (Json.num ((-(v.val : ℤ) : ℤ) : ℚ)))
      ∧ (findValue m.serializeEntries "hue" = none
          ∨ findValue m.serializeEntries "hue_inc" = none))
    ∧ ((m.saturation = none →
        findValue m.serializeEntries "sat" = none
        ∧ findValue m.serializeEntries "sat_inc" = none)
      ∧ (∀ v, m.saturation = some (Adjust.Override v) →
          findValue m.serializeEntries "sat" = some (Json.num (v.val : ℚ))
          ∧ findValue m.serializeEntries "sat_inc" = none)
      ∧ (∀ v, m.saturation = some (Adjust.Increment v) →
          findValue m.serializeEntries "sat" = none
          ∧ findValue m.serializeEntries "sat_inc" = some (Json.num ((v.val : ℤ) : ℚ)))
      ∧ (∀ v, m.saturation = some (Adjust.Decrement v) →
          findValue m.serializeEntries "sat" = none
          ∧ findValue m.serializeEntries "sat_inc" = some (Json.num ((-(v.val : ℤ) : ℤ) : ℚ)))
      ∧ (findValue m.serializeEntries "sat" = none
          ∨ findValue m.serializeEntries "sat_inc" = none))
    ∧ ((m.color_space_coordinates = none →
        findValue m.serializeEntries "xy" = none
        ∧ findValue m.serializeEntries "xy_inc" = none)
      ∧ (∀ p, m.color_space_coordinates = some (Adjust.Override p) →
          findValue m.serializeEntries "xy" = some (Json.arr [Json.num p.1, Json.num p.2])
          ∧ findValue m.serializeEntries "xy_inc" = none)
      ∧ (∀ a b, m.color_space_coordinates = some (Adjust.Increment (a, b)) →
          findValue m.serializeEntries "xy" = none
          ∧ findValue m.serializeEntries "xy_inc" = some (Json.arr [Json.num a, Json.num b]))
      ∧ (∀ a b, m.color_space_coordinates = some (Adjust.Decrement (a, b)) →
          findValue m.serializeEntries "xy" = none
          ∧ findValue m.serializeEntries "xy_inc" = some (Json.arr [Json.num (-a), Json.num (-b)]))
      ∧ (findValue m.serializeEntries "xy" = none
          ∨ findValue m.serializeEntries "xy_inc" = none))
    ∧ ((m.color_temperature = none →
        findValue m.serializeEntries "ct" = none
        ∧ findValue m.serializeEntries "ct_inc" = none)
      ∧ (∀ v, m.color_temperature = some (Adjust.Override v) →
          findValue m.serializeEntries "ct" = some (Json.num (v.val : ℚ))
          ∧ findValue m.serializeEntries "ct_inc" = none)
      ∧ (∀ v, m.color_temperature = some (Adjust.Increment v) →
          findValue m.serializeEntries "ct" = none
          ∧ findValue m.serializeEntries "ct_inc" = some (Json.num ((v.val : ℤ) : ℚ)))
      ∧ (∀ v, m.color_temperature = some (Adjust.Decrement v) →
          findValue m.serializeEntries "ct" = none
          ∧ findValue m.serializeEntries "ct_inc" = some (Json.num ((-(v.val : ℤ) : ℤ) : ℚ)))
      ∧ (findValue m.serializeEntries "ct" = none
          ∨ findValue m.serializeEntries "ct_inc" = none)) := by
  refine ⟨?_, ?_, ?_, ?_, ?_⟩
  · refine ⟨?_, ?_, ?_, ?_, ?_⟩
    · intro hb
      simp [serializeEntries_bri, serializeEntries_bri_inc, hb, to_override, to_increment, pairJson]
    · intro v hb
      simp [serializeEntries_bri, serializeEntries_bri_inc, hb, to_override, to_increment, pairJson]
    · intro v hb
      simp [serializeEntries_bri, serializeEntries_bri_inc, hb, to_override, to_increment, pairJson]
    · intro v hb
      simp [serializeEntries_bri, serializeEntries_bri_inc, hb, to_override, to_increment, pairJson]
    · rcases hb : m.brightness with _ | v
      · exact Or.inl (by simp [serializeEntries_bri, hb, to_override])
      · cases v with
        | Override x =>
          exact Or.inr (by simp [serializeEntries_bri_inc, hb, to_increment])
        | Increment x =>
          exact Or.inl (by simp [serializeEntries_bri, hb, to_override])
        | Decrement x =>
          exact Or.inl (by simp [serializeEntries_bri, hb, to_override])
  · refine ⟨?_, ?_, ?_, ?_, ?_⟩
    · intro hb
      simp [serializeEntries_hue, serializeEntries_hue_inc, hb, to_override, to_increment, pairJson]
    · intro v hb
      simp [serializeEntries_hue, serializeEntries_hue_inc, hb, to_override, to_increment, pairJson]
    · intro v hb
      simp [serializeEntries_hue, serializeEntries_hue_inc, hb, to_override, to_increment, pairJson]
    · intro v hb
      simp [serializeEntries_hue, serializeEntries_hue_inc, hb, to_override, to_increment, pairJson]
    · rcases hb : m.hue with _ | v
      · exact Or.inl (by simp [serializeEntries_hue, hb, to_override])
      · cases v with
        | Override x =>
          exact Or.inr (by simp [serializeEntries_hue_inc, hb, to_increment])
        | Increment x =>
          exact Or.inl (by simp [serializeEntries_hue, hb, to_override])
        | Decrement x =>
          exact Or.inl (by simp [serializeEntries_hue, hb, to_override])
  · refine ⟨?_, ?_, ?_, ?_, ?_⟩
    · intro hb
      simp [serializeEntries_sat, serializeEntries_sat_inc, hb, to_override, to_increment, pairJson]
    · intro v hb
      simp [serializeEntries_sat, serializeEntries_sat_inc, hb, to_override, to_increment, pairJson]
    · intro v hb
      simp [serializeEntries_sat, serializeEntries_sat_inc, hb, to_override, to_increment, pairJson]
    · intro v hb
      simp [serializeEntries_sat, serializeEntries_sat_inc, hb, to_override, to_increment, pairJson]
    · rcases hb : m.saturation with _ | v
      · exact Or.inl (by simp [serializeEntries_sat, hb, to_override])
      · cases v with
        | Override x =>
          exact Or.inr (by simp [serializeEntries_sat_inc, hb, to_increment])
        | Increment x =>
          exact Or.inl (by simp [serializeEntries_sat, hb, to_override])
        | Decrement x =>
          exact Or.inl (by simp [serializeEntries_sat, hb, to_override])
  · refine ⟨?_, ?_, ?_, ?_, ?_⟩
    · intro hb
      simp [serializeEntries_xy, serializeEntries_xy_inc, hb, to_override, to_increment_tuple, pairJson]
    · intro p hb
      simp [serializeEntries_xy, serializeEntries_xy_inc, hb, to_override, to_increment_tuple, pairJson]
    · intro a b hb
      simp [serializeEntries_xy, serializeEntries_xy_inc, hb, to_override, to_increment_tuple, pairJson]
    · intro a b hb
      simp [serializeEntries_xy, serializeEntries_xy_inc, hb, to_override, to_increment_tuple, pairJson]
    · rcases hb : m.color_space_coordinates with _ | v
      · exact Or.inl (by simp [serializeEntries_xy, hb, to_override])
      · cases v with
        | Override x =>
          exact Or.inr (by simp [serializeEntries_xy_inc, hb, to_increment_tuple])
        | Increment x =>
          exact Or.inl (by simp [serializeEntries_xy, hb, to_override])
        | Decrement x =>
          exact Or.inl (by simp [serializeEntries_xy, hb, to_override])
  · refine ⟨?_, ?_, ?_, ?_, ?_⟩
    · intro hb
      simp [serializeEntries_ct, serializeEntries_ct_inc, hb, to_override, to_increment, pairJson]
    · intro v hb
      simp [serializeEntries_ct, serializeEntries_ct_inc, hb, to_override, to_increment, pairJson]
    · intro v hb
      simp [serializeEntries_ct, serializeEntries_ct_inc, hb, to_override, to_increment, pairJson]
    · intro v hb
      simp [serializeEntries_ct, serializeEntries_ct_inc, hb, to_override, to_increment, pairJson]
    · rcases hb : m.color_temperature with _ | v
      · exact Or.inl (by simp [serializeEntries_ct, hb, to_override])
      · cases v with
        | Override x =>
          exact Or.inr (by simp [serializeEntries_ct_inc, hb, to_increment])
        | Increment x =>
          exact Or.inl (by simp [serializeEntries_ct, hb, to_override])
        | Decrement x =>
          exact Or.inl (by simp [serializeEntries_ct, hb, to_override])

/-- C1 witness: the theorem applied at a concrete modifier (brightness
incremented by 1, hue overridden to 2, saturation decremented by 3,
coordinates and color temperature unset). -/
theorem adjust_serialization_rule_witness :
    findValue (StateModifier.serializeEntries
        { brightness := some (Adjust.Increment 1), hue := some (Adjust.Override 2),
          saturation := some (Adjust.Decrement 3) }) "bri_inc" = some (Json.num 1)
    ∧ findValue (StateModifier.serializeEntries
        { brightness := some (Adjust.Increment 1), hue := some (Adjust.Override 2),
          saturation := some (Adjust.Decrement 3) }) "bri" = none
    ∧ findValue (StateModifier.serializeEntries
        { brightness := some (Adjust.Increment 1), hue := some (Adjust.Override 2),
          saturation := some (Adjust.Decrement 3) }) "hue" = some (Json.num 2)
    ∧ findValue (StateModifier.serializeEntries
        { brightness := some (Adjust.Increment 1), hue := some (Adjust.Override 2),
          saturation := some (Adjust.Decrement 3) }) "sat_inc" = some (Json.num (-3))
    ∧ findValue (StateModifier.serializeEntries
        { brightness := some (Adjust.Increment 1), hue := some (Adjust.Override 2),
          saturation := some (Adjust.Decrement 3) }) "xy" = none
    ∧ findValue (StateModifier.serializeEntries
        { brightness := some (Adjust.Increment 1), hue := some (Adjust.Override 2),
          saturation := some (Adjust.Decrement 3) }) "xy_inc" = none := by
  have h := adjust_serialization_rule
    { brightness := some (Adjust.Increment 1), hue := some (Adjust.Override 2),
      saturation := some (Adjust.Decrement 3) }
  obtain ⟨hb, hh, hs, hxy, hct⟩ := h
  refine ⟨?_, ?_, ?_, ?_, ?_, ?_⟩
  · simpa using (hb.2.2.1 1 rfl).2
  · exact (hb.2.2.1 1 rfl).1
  · simpa using (hh.2.1 2 rfl).1
  · simpa using (hs.2.2.2.1 3 rfl).2
  · exact (hxy.1 rfl).1
  · exact (hxy.1 rfl).2

/-- C2: a Modifier call returns the full decoded vector of per-attribute
`Response<Modified>` entries in the original order, preserving every
`Success` and every `Error` entry with no information loss; `Error` entries
among the sequence never by themselves make the call return `Err`. -/
theorem modifier_execute_preserves_responses (elems : List Json)
    (entries : List (Response Modified))
    (h : List.Forall₂ (fun e r => decodeResponse decodeModified e = .ok r) elems entries) :
    Modifier.execute (.arr elems) = .ok entries := by
  have hd : decodeVec (decodeResponse decodeModified) (.arr elems) = .ok entries :=
    decodeElems_of_forall₂ h
  simp only [Modifier.execute]
  rw [hd]

/-- C2 witness: the theorem applied at a mixed reply (one success, one
error), both recovered in order. -/
theorem modifier_execute_preserves_responses_witness :
    Modifier.execute (.arr
      [.obj [("success", .obj [("/lights/1/state/bri", .num 200)])],
       .obj [("error", .obj [("type", .num 101), ("address", .str "/lights/1"),
         ("description", .str "link button not pressed")])]])
      = .ok [.Success ⟨"/lights/1/state/bri", .num 200⟩,
             .Error ⟨.LinkButtonNotPressed, "/lights/1", "link button not pressed"⟩] :=
  modifier_execute_preserves_responses _ _ (.cons rfl (.cons rfl .nil))

/-- C3 (code bug evidence): `ErrorKind` decoding has no catch-all -- the
undocumented code 999 fails the decode (and fails the whole error-element
decode) instead of yielding `UnkownError`; only the accidental implicit
discriminant 902 maps to `UnkownError`, while documented codes map to their
named variants. -/
theorem errorkind_unknown_code_decode_fails :
    decodeErrorKind (.num 999) = .error .invalidValue
    ∧ decodeResponse Except.ok (.obj [("error", .obj [("type", .num 999),
        ("address", .str "/"), ("description", .str "x")])]) = .error .invalidValue
    ∧ decodeErrorKind (.num 1) = .ok .UnauthorizedUser
    ∧ decodeErrorKind (.num 101) = .ok .LinkButtonNotPressed
    ∧ decodeErrorKind (.num 901) = .ok .InternalError
    ∧ decodeErrorKind (.num 902) = .ok .UnkownError :=
  ⟨rfl, rfl, rfl, rfl, rfl, rfl⟩

/-- C4 (amended): when a GET payload parses as the error-sequence envelope,
`parse_response` surfaces the error of the LAST element of the sequence (the
code pops the vector) -- and only when the last element is an error; a
sequence ending in a `Success`, or an empty one, falls through to the
resource-shape decode. -/
theorem parse_response_surfaces_last_error {T : Type}
    (dT : Json → Except DecodeError T) (raw : Json) (v : List (Response Json))
    (hdec : decodeVec (decodeResponse .ok) raw = .ok v) :
    (∀ e, v.getLast? = some (.Error e) → parse_response dT raw = .error (.Response e))
    ∧ (∀ x, v.getLast? = some (.Success x) →
        parse_response dT raw = (dT raw).mapError HueError.ParseJson)
    ∧ (v = [] → parse_response dT raw = (dT raw).mapError HueError.ParseJson) := by
  refine ⟨?_, ?_, ?_⟩
  · intro e he
    simp only [parse_response, hdec, he, Response.into_result]
  · intro x hx
    simp only [parse_response, hdec, hx, Response.into_result]
    cases h : dT raw <;> simp [Except.mapError, h]
  · intro hv
    subst hv
    simp only [parse_response, hdec]
    cases h : dT raw <;> simp [Except.mapError, h]

/-- C4 witness: the theorem applied at a one-element error reply. -/
theorem parse_response_surfaces_last_error_witness :
    parse_response Except.ok
      (.arr [.obj [("error", .obj [("type", .num 2), ("address", .str "/b"),
        ("description", .str "two")])]])
      = .error (.Response ⟨.BodyContainsInvalidJson, "/b", "two"⟩) :=
  (parse_response_surfaces_last_error Except.ok
    (.arr [.obj [("error", .obj [("type", .num 2), ("address", .str "/b"),
      ("description", .str "two")])]])
    [.Error ⟨.BodyContainsInvalidJson, "/b", "two"⟩] rfl).1 _ rfl

/-- C4 counterexample: with two error elements the call surfaces the SECOND
(last) error, not the first -- the first element decodes to the kind-1 error
at `/a`, yet the call returns the kind-2 error at `/b`. -/
theorem parse_response_first_error_counterexample :
    parse_response Except.ok
      (.arr [.obj [("error", .obj [("type", .num 1), ("address", .str "/a"),
         ("description", .str "one")])],
       .obj [("error", .obj [("type", .num 2), ("address", .str "/b"),
         ("description", .str "two")])]])
      = .error (.Response ⟨.BodyContainsInvalidJson, "/b", "two"⟩)
    ∧ decodeResponse Except.ok (.obj [("error", .obj [("type", .num 1),
        ("address", .str "/a"), ("description", .str "one")])])
      = .ok (.Error ⟨.UnauthorizedUser, "/a", "one"⟩)
    ∧ (⟨.BodyContainsInvalidJson, "/b", "two"⟩ : ResponseError)
        ≠ ⟨.UnauthorizedUser, "/a", "one"⟩ :=
  ⟨rfl, rfl, by decide⟩

/-- C5 (amended): a Creator call takes the last entry of the response
sequence as authoritative: a `Success` with an `id` yields that id, an empty
sequence yields `GetCreatedId`, and a last `Error` entry is propagated.  A
last `Success` lacking an `id` key yields `GetCreatedId` in
`Bridge::create_group` (HashMap decode) but fails the response decode in the
generic `Creator::execute` (its `CreationInfo` requires `id`), so that path
returns the `ParseJson` decode error instead. -/
theorem creator_last_entry_authoritative (raw : Json) :
    (∀ rs info, decodeVec (decodeResponse decodeCreationInfo) raw = .ok rs →
        rs.getLast? = some (.Success info) → Creator.execute raw = .ok info.id)
    ∧ (∀ rs e, decodeVec (decodeResponse decodeCreationInfo) raw = .ok rs →
        rs.getLast? = some (.Error e) → Creator.execute raw = .error (.Response e))
    ∧ Creator.execute (.arr []) = .error .GetCreatedId
    ∧ create_group (.arr []) = .error .GetCreatedId
    ∧ (∀ rs m, decodeVec (decodeResponse decodeStringMap) raw = .ok rs →
        rs.getLast? = some (.Success m) → getId? m = none →
        create_group raw = .error .GetCreatedId)
    ∧ (∀ rs m v, decodeVec (decodeResponse decodeStringMap) raw = .ok rs →
        rs.getLast? = some (.Success m) → getId? m = some v →
        create_group raw = .ok v)
    ∧ (∀ rs e, decodeVec (decodeResponse decodeStringMap) raw = .ok rs →
        rs.getLast? = some (.Error e) → create_group raw = .error (.Response e)) := by
  refine ⟨?_, ?_, rfl, rfl, ?_, ?_, ?_⟩
  · intro rs info hdec hlast
    simp only [Creator.execute, hdec, hlast, Response.into_result]
  · intro rs e hdec hlast
    simp only [Creator.execute, hdec, hlast, Response.into_result]
  · intro rs m hdec hlast hid
    simp only [create_group, hdec, hlast, Response.into_result, hid]
  · intro rs m v hdec hlast hid
    simp only [create_group, hdec, hlast, Response.into_result, hid]
  · intro rs e hdec hlast
    simp only [create_group, hdec, hlast, Response.into_result]

/-- C5 witness: the theorem applied at the reply `[{"success":{"id":"5"}}]`
for both creator implementations. -/
theorem creator_last_entry_authoritative_witness :
    Creator.execute (.arr [.obj [("success", .obj [("id", .str "5")])]]) = .ok "5"
    ∧ create_group (.arr [.obj [("success", .obj [("id", .str "5")])]]) = .ok "5" := by
  have h := creator_last_entry_authoritative (.arr [.obj [("success", .obj [("id", .str "5")])]])
  exact ⟨h.1 [.Success ⟨"5"⟩] ⟨"5"⟩ rfl rfl,
    h.2.2.2.2.2.1 [.Success [("id", "5")]] [("id", "5")] "5" rfl rfl rfl⟩

/-- C5 counterexample: on `[{"success":{"name":"x"}}]` the generic
`Creator::execute` fails with the `ParseJson` decode error (its
`CreationInfo` decode requires `id`), not with `GetCreatedId` as claimed. -/
theorem creator_missing_id_counterexample :
    Creator.execute (.arr [.obj [("success", .obj [("name", .str "x")])]])
      = .error (.ParseJson (.missingField "id"))
    ∧ HueError.ParseJson (.missingField "id") ≠ HueError.GetCreatedId :=
  ⟨rfl, by decide⟩

/-- C6: registration takes the last entry of the response sequence: a
`Success` yields the decoded user (username, and the clientkey whenever the
reply carries one); an empty sequence yields `GetUsername`; an `Error` entry
is propagated verbatim (so the caller can distinguish its kind); and the
request body carries the `generateclientkey` flag exactly when the caller
requested key generation. -/
theorem register_user_last_entry (d : String) (g : Bool) (raw : Json) :
    (∃ kvs, register_request_body d g = .obj kvs
        ∧ findValue kvs "devicetype" = some (.str d)
        ∧ findValue kvs "generateclientkey" = (if g then some (.bool true) else none))
    ∧ register_user (.arr []) = .error .GetUsername
    ∧ (∀ rs u, decodeVec (decodeResponse decodeUser) raw = .ok rs →
        rs.getLast? = some (.Success u) → register_user raw = .ok u)
    ∧ (∀ rs e, decodeVec (decodeResponse decodeUser) raw = .ok rs →
        rs.getLast? = some (.Error e) → register_user raw = .error (.Response e)) := by
  refine ⟨?_, rfl, ?_, ?_⟩
  · cases g
    · exact ⟨_, rfl, rfl, rfl⟩
    · exact ⟨_, rfl, rfl, rfl⟩
  · intro rs u hdec hlast
    simp only [register_user, hdec, hlast, Response.into_result]
  · intro rs e hdec hlast
    simp only [register_user, hdec, hlast, Response.into_result]

/-- C6 witness: the theorem applied at a success reply carrying username and
clientkey, and at a link-button-not-pressed error reply. -/
theorem register_user_last_entry_witness :
    register_user (.arr [.obj [("success", .obj [("username", .str "abc"),
        ("clientkey", .str "0123456789abcdef0123456789abcdef")])]])
      = .ok ⟨"abc", some "0123456789abcdef0123456789abcdef"⟩
    ∧ register_user (.arr [.obj [("error", .obj [("type", .num 101),
        ("address", .str ""), ("description", .str "link not pressed")])]])
      = .error (.Response ⟨.LinkButtonNotPressed, "", "link not pressed"⟩) := by
  have h1 := register_user_last_entry "app" true
    (.arr [.obj [("success", .obj [("username", .str "abc"),
      ("clientkey", .str "0123456789abcdef0123456789abcdef")])]])
  have h2 := register_user_last_entry "app" false
    (.arr [.obj [("error", .obj [("type", .num 101),
      ("address", .str ""), ("description", .str "link not pressed")])]])
  exact ⟨h1.2.2.1 [.Success ⟨"abc", some "0123456789abcdef0123456789abcdef"⟩]
      ⟨"abc", some "0123456789abcdef0123456789abcdef"⟩ rfl rfl,
    h2.2.2.2 [.Error ⟨.LinkButtonNotPressed, "", "link not pressed"⟩]
      ⟨.LinkButtonNotPressed, "", "link not pressed"⟩ rfl rfl⟩

end Huelib
